import Mathlib

/-!
Verification of the Signup_front Streamlit dashboard against its
natural-language specification.

The repository consists of five Streamlit pages.  The logic relevant to the
claims is embedded shallowly below:

* Python string helpers (`str.strip`, `str.splitlines`, `"\n".join`) used by
  the newline-delimited list fields;
* the settings-document model (`SettingVal`), the widget-rendering function
  `render_setting` and the reconstruction function `build_updated_settings`
  of `pages/5_Full_Flow_Config.py`;
* the status / log / control API helpers shared by
  `pages/2_Run_Full_Flow.py`, `pages/3_Check_Consistency.py` and
  `pages/4_Delete_Profiles.py`;
* the summary fetch and page dispatch of `1_Summary_Dashboard.py`;
* the save / cache-invalidation flow of the two settings-editing pages.

Network effects are represented by explicit response values; Streamlit
session state is passed explicitly.
-/

/-! ## Python string primitives -/

/-- Python whitespace characters recognised by `str.strip()` (ASCII subset;
the unicode spaces Python additionally strips are irrelevant to the inputs
this dashboard handles). -/
def isPySpace (c : Char) : Bool :=
  c = ' ' || c = '\t' || c = '\n' || c = '\r' || c = '\x0b' || c = '\x0c'

/-- `str.strip()` on the character list: drop leading and trailing
whitespace. -/
def stripChars (l : List Char) : List Char :=
  ((l.dropWhile isPySpace).reverse.dropWhile isPySpace).reverse

/-- Python `str.strip()`. -/
def pyStrip (s : String) : String :=
  ⟨stripChars s.data⟩

/-- Line-boundary characters of Python `str.splitlines()` (ASCII plus the
unicode separators). -/
def isLineBreak (c : Char) : Bool :=
  c = '\n' || c = '\r' || c = '\x0b' || c = '\x0c' ||
  c = '\x1c' || c = '\x1d' || c = '\x1e' || c = '\x85' ||
  c = '\u2028' || c = '\u2029'

/-- Worker for `str.splitlines()`: `acc` holds the current line reversed.
`\r\n` counts as a single boundary; a trailing boundary does not produce an
empty final line. -/
def pySplitlinesAux : List Char → List Char → List String
  | [], acc => if acc.isEmpty then [] else [String.mk acc.reverse]
  | c :: rest, acc =>
    if isLineBreak c then
      String.mk acc.reverse ::
        pySplitlinesAux (if c = '\r' && rest.head? = some '\n' then rest.tail else rest) []
    else
      pySplitlinesAux rest (c :: acc)
termination_by l _ => l.length
decreasing_by
  · simp only [List.length_cons]
    split
    · cases rest
      · simp
      · simp; omega
    · omega
  · simp

/-- Python `str.splitlines()`. -/
def pySplitlines (s : String) : List String :=
  pySplitlinesAux s.data []

/-- The repeated list-comprehension idiom
`[line.strip() for line in text.splitlines() if line.strip()]` used in
`pages/5_Full_Flow_Config.py` line 124, `pages/3_Check_Consistency.py`
line 208 and `pages/4_Delete_Profiles.py` line 146. -/
def cleanLines (text : String) : List String :=
  (pySplitlines text).filterMap fun line =>
    let s := pyStrip line
    if s = "" then none else some s

/-- Character-level worker for Python `"\n".join(xs)`. -/
def joinNLChars : List String → List Char
  | [] => []
  | [x] => x.data
  | x :: y :: rest => x.data ++ '\n' :: joinNLChars (y :: rest)

/-- Python `"\n".join(xs)` (as used when rendering a list field into a
text area). -/
def pyJoinNL (xs : List String) : String :=
  ⟨joinNLChars xs⟩


/-! ## Settings documents (`pages/5_Full_Flow_Config.py`) -/

/-- A value inside a settings document: the JSON/YAML leaf types the spec
allows (bool, int, float, str, list of str) plus nested mappings.  Python
floats are modelled as rationals; no float arithmetic occurs in this
code, only identity round-trips and type dispatch. -/
inductive SettingVal where
  | b (x : Bool)
  | i (x : Int)
  | f (x : Rat)
  | s (x : String)
  | l (xs : List String)
  | d (fields : List (String × SettingVal))
deriving Repr

/-- A value held by a Streamlit widget in `st.session_state`: checkboxes
hold bools, number inputs hold ints or floats, text inputs / areas hold
strings. -/
inductive WVal where
  | wb (x : Bool)
  | wi (x : Int)
  | wf (x : Rat)
  | ws (x : String)
deriving Repr, DecidableEq

/-- Python `bool(widget_value)` (never raises). -/
def pyBool : WVal → Bool
  | .wb x => x
  | .wi n => n ≠ 0
  | .wf q => q ≠ 0
  | .ws s => s ≠ ""

/-- Python `int(float)` truncates toward zero. -/
def pyTruncRat (q : Rat) : Int :=
  Int.tdiv q.num (Int.ofNat q.den)

/-- Digit run to a natural number, `none` if empty or non-digit. -/
def digitsToNat (cs : List Char) : Option Nat :=
  if cs ≠ [] && cs.all Char.isDigit then
    some (cs.foldl (fun acc c => 10 * acc + (c.toNat - '0'.toNat)) 0)
  else none

/-- Modelled from Python `int(str)`: strips whitespace, optional sign,
decimal digits; anything else raises `ValueError` (`none` here).  (Python
additionally accepts underscore digit grouping, which never arises from
these widgets.) -/
def pyParseInt (s : String) : Option Int :=
  match (pyStrip s).data with
  | '-' :: rest => (digitsToNat rest).map (fun n => -(Int.ofNat n))
  | '+' :: rest => (digitsToNat rest).map Int.ofNat
  | cs => (digitsToNat cs).map Int.ofNat

/-- Modelled from Python `float(str)`: optional sign, digits with an
optional fractional part; other forms (exponents, `inf`, `nan`) never
arise from these widgets and are treated as failures. -/
def pyParseFloat (s : String) : Option Rat :=
  let core : List Char → Option Rat := fun cs =>
    match cs.splitOn '.' with
    | [whole] => (digitsToNat whole).map (fun n => (n : Rat))
    | [whole, frac] =>
      match digitsToNat whole, digitsToNat frac with
      | some w, some fr => some ((w : Rat) + (fr : Rat) / ((10 : Rat) ^ frac.length))
      | _, _ => none
    | _ => none
  match (pyStrip s).data with
  | '-' :: rest => (core rest).map Neg.neg
  | '+' :: rest => core rest
  | cs => core cs

/-- Python `int(widget_value)`: `none` when `ValueError` is raised. -/
def pyIntW : WVal → Option Int
  | .wb x => some (if x then 1 else 0)
  | .wi n => some n
  | .wf q => some (pyTruncRat q)
  | .ws s => pyParseInt s

/-- Python `float(widget_value)`: `none` when `ValueError` is raised. -/
def pyFloatW : WVal → Option Rat
  | .wb x => some (if x then 1 else 0)
  | .wi n => some (n : Rat)
  | .wf q => some q
  | .ws s => pyParseFloat s

/-- Modelled from Python `repr` of a float, as used by `str(value)` on a
list (content irrelevant to every claim, only its string-ness matters). -/
def pyStrFloat (q : Rat) : String :=
  toString q

/-- Python `str(widget_value)` (never raises). -/
def pyStrW : WVal → String
  | .wb x => if x then "True" else "False"
  | .wi n => toString n
  | .wf q => pyStrFloat q
  | .ws s => s

/-- A widget value dropped verbatim into the reconstructed document (the
`else: updated_dict[key] = widget_value` fallback of line 126). -/
def widgetToVal : WVal → SettingVal
  | .wb x => .b x
  | .wi n => .i n
  | .wf q => .f q
  | .ws s => .s s

/-- Python `sep.join(xs)`. -/
def joinWith (sep : String) : List String → String
  | [] => ""
  | [x] => x
  | x :: y :: rest => x ++ sep ++ joinWith sep (y :: rest)

/-- Python `repr` of a list of strings, as rendered read-only by
`str(value)` in the generic-list branch of `render_setting` (line 100). -/
def pyReprStrList (xs : List String) : String :=
  "[" ++ joinWith ", " (xs.map (fun x => "'" ++ x ++ "'")) ++ "]"

/-- The list-valued keys edited as newline-delimited text areas
(`render_setting` lines 96-98, `build_updated_settings` line 124). -/
def specialListKeys : List String := ["profile_ids", "proxies", "recovery_emails"]

/-- `unique_key = 'setting_' + '_'.join(map(str, key_path))` (line 82). -/
def widgetKey (key_path : List String) : String :=
  "setting_" ++ joinWith "_" key_path

/-- `key = key_path[-1]` (line 82; call sites always pass a non-empty
path). -/
def lastKey (key_path : List String) : String :=
  key_path.getLast?.getD ""

mutual
/-- `render_setting(key_path, value)` of `pages/5_Full_Flow_Config.py`
lines 80-104, projected onto the widget state it creates: the list of
`(session-state key, initial widget value)` pairs.  Checkboxes store the
bool, number inputs store the number (the `threads` / `num_profiles`
bounds only affect widget chrome, not the stored value), text areas for
the special list keys store `"\n".join(value)`, plain strings store the
string, any other list renders read-only as `str(value)`, and nested
dicts recurse into each entry. -/
def render_setting : List String → SettingVal → List (String × WVal)
  | key_path, .b x => [(widgetKey key_path, .wb x)]
  | key_path, .i x => [(widgetKey key_path, .wi x)]
  | key_path, .f x => [(widgetKey key_path, .wf x)]
  | key_path, .s x => [(widgetKey key_path, .ws x)]
  | key_path, .l xs =>
    if specialListKeys.contains (lastKey key_path) then
      [(widgetKey key_path, .ws (pyJoinNL xs))]
    else
      [(widgetKey key_path, .ws (pyReprStrList xs))]
  | key_path, .d fields => renderFields fields key_path

/-- The dict branch of `render_setting` (line 103): render every entry at
the extended path. -/
def renderFields : List (String × SettingVal) → List String → List (String × WVal)
  | [], _ => []
  | (k, v) :: rest, key_path =>
    render_setting (key_path ++ [k]) v ++ renderFields rest key_path
end

/-- The per-leaf body of `build_updated_settings` lines 118-127: look the
widget up in session state and coerce its value back to the original
leaf's type, keeping the original value when the coercion raises; a leaf
with no widget keeps its original value (line 128). -/
def coerceWidget (key : String) (original : SettingVal) (w : Option WVal) : SettingVal :=
  match w with
  | none => original
  | some wv =>
    match original with
    | .b _ => .b (pyBool wv)
    | .i _ =>
      match pyIntW wv with
      | some n => .i n
      | none => original
    | .f _ =>
      match pyFloatW wv with
      | some q => .f q
      | none => original
    | .l _ =>
      if specialListKeys.contains key then
        match wv with
        | .ws t => .l (cleanLines t)
        | _ => original
      else
        widgetToVal wv
    | .s _ => .s (pyStrW wv)
    | .d fields => .d fields

mutual
/-- `build_updated_settings(original_data_structure, key_path)` of
`pages/5_Full_Flow_Config.py` lines 107-130, with `st.session_state`
passed explicitly as a partial map from widget keys to widget values.
Non-dict input is returned unchanged (line 130). -/
def build_updated_settings :
    SettingVal → List String → (String → Option WVal) → SettingVal
  | .d fields, key_path, state => .d (buildFields fields key_path state)
  | v, _, _ => v

/-- The per-entry loop of `build_updated_settings` lines 112-128: dict
values recurse, leaves go through the widget lookup and coercion. -/
def buildFields :
    List (String × SettingVal) → List String → (String → Option WVal) →
    List (String × SettingVal)
  | [], _, _ => []
  | (k, v) :: rest, key_path, state =>
    (k, buildEntry k v key_path state) :: buildFields rest key_path state

/-- One loop iteration of `build_updated_settings`: a dict value recurses
(line 115), a leaf goes through the widget lookup and coercion
(lines 117-127). -/
def buildEntry (k : String) (v : SettingVal) (key_path : List String)
    (state : String → Option WVal) : SettingVal :=
  match v with
  | .d f2 => .d (buildFields f2 (key_path ++ [k]) state)
  | leaf => coerceWidget k leaf (state (widgetKey (key_path ++ [k])))
end

/-- Session state as produced by rendering a whole document with no user
edits: look each key up in the rendered widget list. -/
def renderState (fields : List (String × SettingVal)) : String → Option WVal :=
  fun k => (renderFields fields []).lookup k

/-- A list element that survives the newline round-trip unchanged:
non-empty, already stripped, and free of line-break characters. -/
def cleanElem (x : String) : Bool :=
  (x != "") && (pyStrip x == x) && x.data.all (fun c => !isLineBreak c)

mutual
/-- Well-formedness of a leaf for the unedited round-trip: list leaves
must sit under one of the newline-edited keys and contain only clean
elements; all other leaf types round-trip unconditionally. -/
def goodVal : String → SettingVal → Bool
  | _, .b _ => true
  | _, .i _ => true
  | _, .f _ => true
  | _, .s _ => true
  | k, .l xs => specialListKeys.contains k && xs.all cleanElem
  | _, .d fields => goodFields fields

/-- `goodVal` over every entry of a mapping. -/
def goodFields : List (String × SettingVal) → Bool
  | [] => true
  | (k, v) :: rest => goodVal k v && goodFields rest
end

mutual
/-- Same leaf type (bool / int / float / str / list / mapping), with
mappings compared entrywise (same key sequence, same types below). -/
def sameTypes : SettingVal → SettingVal → Bool
  | .b _, .b _ => true
  | .i _, .i _ => true
  | .f _, .f _ => true
  | .s _, .s _ => true
  | .l _, .l _ => true
  | .d f1, .d f2 => sameTypesFields f1 f2
  | _, _ => false

/-- `sameTypes` over two mappings, entry by entry. -/
def sameTypesFields :
    List (String × SettingVal) → List (String × SettingVal) → Bool
  | [], [] => true
  | (k1, v1) :: r1, (k2, v2) :: r2 =>
    (k1 == k2) && sameTypes v1 v2 && sameTypesFields r1 r2
  | _, _ => false
end

mutual
/-- Every list leaf of the value sits under one of the newline-edited
keys (the hypothesis under which `build_updated_settings` preserves
types for arbitrary widget values). -/
def listKeysOk : String → SettingVal → Bool
  | k, .l _ => specialListKeys.contains k
  | _, .d fields => listKeysOkFields fields
  | _, _ => true

/-- `listKeysOk` over every entry of a mapping. -/
def listKeysOkFields : List (String × SettingVal) → Bool
  | [] => true
  | (k, v) :: rest => listKeysOk k v && listKeysOkFields rest
end

/-! ## Worker status, logs and control commands -/

/-- The client-side belief about the remote worker
(`st.session_state.api_status`).  A well-formed `/status` payload is any
JSON dict containing a `state` key; `task`, `details` and `last_update`
are optional. -/
structure WorkerStatus where
  state : String
  task : Option String := none
  details : Option String := none
  lastUpdate : Option Int := none
deriving Repr, DecidableEq

/-- The enumerated worker states of the spec's data model. -/
def stateEnum : List String :=
  ["unknown", "idle", "running", "starting", "stopping", "stopped", "error"]

/-- Outcome of a `GET /status` request as seen by the page:
a transport error (`requests.exceptions.RequestException`, including
timeouts and non-2xx via `raise_for_status`), a JSON decode failure, a
decoded payload that is not a dict containing `state` (carrying its
`repr` for the message), or a well-formed payload. -/
inductive StatusResp where
  | reqError (excName : String)
  | badJson
  | notStatusDict (reprStr : String)
  | ok (p : WorkerStatus)
deriving Repr, DecidableEq

/-- Outcome of a `GET /logs` request: transport error, JSON decode
failure, decoded payload without a `logs` list (carrying its `repr`),
or a well-formed list of lines. -/
inductive LogsResp where
  | reqError (excName : String)
  | badJson
  | badShape (reprStr : String)
  | ok (lines : List String)
deriving Repr, DecidableEq

/-- `fetch_logs_from_api()` as written identically in
`pages/2_Run_Full_Flow.py` lines 49-59, `pages/3_Check_Consistency.py`
lines 59-71 and `pages/4_Delete_Profiles.py` lines 48-58: a well-formed
payload replaces the buffer wholesale; a wrong-shape or undecodable
payload replaces it with a single error line; a transport error leaves
the buffer untouched; the return value is the success flag. -/
def fetch_logs_from_api (prev : List String) (resp : LogsResp) :
    List String × Bool :=
  match resp with
  | .ok lines => (lines, true)
  | .badShape _ => (["--- Error: Invalid log format ---"], false)
  | .reqError _ => (prev, false)
  | .badJson => (["--- Error: Invalid JSON logs ---"], false)

/-- Python truthiness of the optional `task_type` argument. -/
def pyTruthyStr : Option String → Bool
  | none => false
  | some s => s != ""

/-- The JSON body assembled by `send_control_command(action, task_type)`
(identical in pages 2, 3 and 4): `payload = {"action": action}` plus
`task_type` only when `action == "start" and task_type` is truthy.
`task_type = none` models an absent key. -/
structure ControlPayload where
  action : String
  task_type : Option String
deriving Repr, DecidableEq

/-- Lines 21-22 of `pages/2_Run_Full_Flow.py` (and the identical lines of
pages 3 and 4). -/
def send_control_command_payload (action : String)
    (task_type : Option String) : ControlPayload :=
  ⟨action, if action == "start" && pyTruthyStr task_type then task_type else none⟩

namespace RunFullFlow

/-- `STATUS_REFRESH_INTERVAL_ACTIVE` of `pages/2_Run_Full_Flow.py`. -/
def STATUS_REFRESH_INTERVAL_ACTIVE : Nat := 1

/-- `STATUS_REFRESH_INTERVAL_IDLE` of `pages/2_Run_Full_Flow.py`. -/
def STATUS_REFRESH_INTERVAL_IDLE : Nat := 10

/-- `fetch_status_from_api()` of `pages/2_Run_Full_Flow.py` lines 32-47,
acting on the previously stored status: a well-formed payload (a dict
containing `state`) is stored wholesale; a malformed payload or JSON
failure replaces the whole status with an error status; a transport
error mutates only `state` and `details` in place, preserving `task`
and `last_update`.  `now` is `time.strftime('%H:%M:%S')`. -/
def fetch_status_from_api (prev : WorkerStatus) (now : String)
    (resp : StatusResp) : WorkerStatus × Bool :=
  match resp with
  | .ok p => (p, true)
  | .notStatusDict r =>
    (⟨"error", none, some ("Invalid status format: " ++ r), none⟩, false)
  | .reqError excName =>
    ({ prev with
        state := "error"
        details := some ("(" ++ now ++ ") Status Fetch Fail: " ++ excName) },
      false)
  | .badJson => (⟨"error", none, some "Invalid JSON status.", none⟩, false)

/-- `is_any_task_running` (line 85): any of the transitional/active
states, independent of which task is named. -/
def is_any_task_running (state : String) : Bool :=
  ["running", "starting", "stopping"].contains state

/-- `page_refresh_interval` (line 171). -/
def page_refresh_interval (state : String) : Nat :=
  if is_any_task_running state then STATUS_REFRESH_INTERVAL_ACTIVE
  else STATUS_REFRESH_INTERVAL_IDLE

end RunFullFlow

namespace CheckConsistency

/-- `STATUS_REFRESH_INTERVAL_ACTIVE` of `pages/3_Check_Consistency.py`. -/
def STATUS_REFRESH_INTERVAL_ACTIVE : Nat := 3

/-- `STATUS_REFRESH_INTERVAL_IDLE` of `pages/3_Check_Consistency.py`. -/
def STATUS_REFRESH_INTERVAL_IDLE : Nat := 30

/-- `fetch_status_from_api()` of `pages/3_Check_Consistency.py`
lines 38-57.  Identical to the page-2 version on the stored status and
return flag; it additionally maintains `last_fetch_time`, updated on a
successful fetch and on a transport error (line 56) but not on a
malformed payload. -/
def fetch_status_from_api (prev : WorkerStatus) (lastFetch : Int)
    (now : String) (nowT : Int) (resp : StatusResp) :
    WorkerStatus × Int × Bool :=
  match resp with
  | .ok p => (p, nowT, true)
  | .notStatusDict r =>
    (⟨"error", none, some ("Invalid status format: " ++ r), none⟩, lastFetch, false)
  | .reqError excName =>
    ({ prev with
        state := "error"
        details := some ("(" ++ now ++ ") Status Fetch Fail: " ++ excName) },
      nowT, false)
  | .badJson =>
    (⟨"error", none, some "Invalid JSON status.", none⟩, lastFetch, false)

/-- `is_this_task_running` (line 235): active state and the active task
is this page's `"consistency"` task. -/
def is_this_task_running (state : String) (task : Option String) : Bool :=
  (["running", "starting", "stopping"].contains state) && task == some "consistency"

/-- `refresh_interval` (line 306). -/
def refresh_interval (state : String) (task : Option String) : Nat :=
  if is_this_task_running state task then STATUS_REFRESH_INTERVAL_ACTIVE
  else STATUS_REFRESH_INTERVAL_IDLE

end CheckConsistency

/-! ## Settings save / cache flow (pages 3 and 4) -/

/-- `@st.cache_data` wrapped around `fetch_main_settings_from_api`: a
cache hit returns the cached `(settings_data, error)` pair with no
network call; a miss performs the call (whose outcome is `net`) and
caches the result.  Returns the pair, the new cache and whether a
network call was issued. -/
def cached_fetch_main_settings
    (cache : Option (Option SettingVal × Option String))
    (net : Option SettingVal × Option String) :
    (Option SettingVal × Option String) ×
      Option (Option SettingVal × Option String) × Bool :=
  match cache with
  | some r => (r, some r, false)
  | none => (net, some net, true)

/-- Python dict assignment `d[key] = x` on the association list: update
in place if present, append otherwise. -/
def setField :
    List (String × SettingVal) → String → SettingVal →
    List (String × SettingVal)
  | [], k, x => [(k, x)]
  | (k', v') :: rest, k, x =>
    if k' == k then (k', x) :: rest else (k', v') :: setField rest k x

/-- `settings[key] = x` on a settings document. -/
def dictSet (v : SettingVal) (key : String) (x : SettingVal) : SettingVal :=
  match v with
  | .d fields => .d (setField fields key x)
  | other => other

/-- The form-widget state of `pages/3_Check_Consistency.py`
(`consistency_profile_ids_widget`, `consistency_threads_widget`,
`consistency_pixelscan_widget`, `consistency_trustscore_widget`). -/
structure ConsistencyForm where
  profileIdsWidget : String
  threadsWidget : Int
  pixelscanWidget : Bool
  trustscoreWidget : Bool
deriving Repr

/-- The page-3 session state relevant to loading and saving settings:
the `fetch_main_settings_from_api` cache, the loaded
`consistency_current_settings` document, and the form state. -/
structure ConsistencyPageState where
  settingsCache : Option (Option SettingVal × Option String)
  currentSettings : Option SettingVal
  form : ConsistencyForm
deriving Repr

/-- `updated_settings_payload` assembled on submit
(`pages/3_Check_Consistency.py` lines 206-212): the loaded settings with
the four widget values written over their keys, the profile IDs going
through the strip-and-drop-blanks split. -/
def consistency_submit_payload (settings : SettingVal)
    (f : ConsistencyForm) : SettingVal :=
  dictSet (dictSet (dictSet (dictSet settings
    "profiles_score_check" (.l (cleanLines f.profileIdsWidget)))
    "score_check_threads" (.i f.threadsWidget))
    "pixelscan_check" (.b f.pixelscanWidget))
    "trust_score_check" (.b f.trustscoreWidget)

/-- The state effect of the submit branch
(`pages/3_Check_Consistency.py` lines 218-225): on a successful save,
`st.cache_data.clear()` empties the fetch cache and
`consistency_current_settings = None` forces a reload; on a failed save
only an error banner is shown and every piece of state is kept. -/
def consistency_submit (pg : ConsistencyPageState) (saveOk : Bool) :
    ConsistencyPageState :=
  if saveOk then { pg with settingsCache := none, currentSettings := none }
  else pg

/-- The page-4 session state relevant to saving
(`pages/4_Delete_Profiles.py`): fetch cache, loaded
`delete_current_settings`, and the `delete_profile_ids_widget` text. -/
structure DeletePageState where
  settingsCache : Option (Option SettingVal × Option String)
  currentSettings : Option SettingVal
  deleteProfileIdsWidget : String
deriving Repr

/-- `updated_settings` assembled by the Save-IDs button
(`pages/4_Delete_Profiles.py` lines 145-147). -/
def delete_save_payload (settings : SettingVal) (idsText : String) :
    SettingVal :=
  dictSet settings "profiles_to_delete" (.l (cleanLines idsText))

/-- The state effect of the Save-IDs button
(`pages/4_Delete_Profiles.py` lines 152-157): success clears the cache
and forces a reload, failure keeps all state. -/
def delete_save_click (pg : DeletePageState) (saveOk : Bool) :
    DeletePageState :=
  if saveOk then { pg with settingsCache := none, currentSettings := none }
  else pg

/-! ## Summary dashboard (`1_Summary_Dashboard.py`) -/

namespace SummaryDashboard

/-- A profile record as delivered by `/profiles/summary`; its contents
are irrelevant to the claims, only row counts matter. -/
abbrev Row := List (String × String)

/-- Outcome of the `GET /profiles/summary` request, following the
exception ladder of `fetch_summary_data_from_api` lines 43-103: a
decoded payload that is a dict with a `profiles` list, a decoded payload
of any other shape, or the distinguished request/processing failures. -/
inductive SummaryResp where
  | payloadProfiles (rows : List Row)
  | payloadBadFormat (reprStr : String)
  | connError
  | timeoutError
  | httpError (code : Nat) (detail : String)
  | otherReqError (msg : String)
  | processingError (msg : String)
deriving Repr

/-- `fetch_summary_data_from_api()` of `1_Summary_Dashboard.py`
lines 38-103, returning the `(DataFrame, error_message)` pair.  The
DataFrame is modelled by its row list (the in-frame type conversions of
lines 58-77 do not change the row count).  URL details interpolated into
the failure messages are elided. -/
def fetch_summary_data_from_api : SummaryResp → List Row × Option String
  | .payloadProfiles rows =>
    if rows.isEmpty then
      ([], some "No profile data found in the backend/sheet.")
    else (rows, none)
  | .payloadBadFormat _ =>
    ([], some "API Error: Invalid summary data format received from backend.")
  | .connError => ([], some "Connection Error: Could not connect to backend API.")
  | .timeoutError => ([], some "Timeout Error: Request timed out.")
  | .httpError code detail =>
    ([], some ("HTTP Error " ++ toString code ++
      ": Failed to fetch summary. API Message: " ++ detail))
  | .otherReqError msg =>
    ([], some ("Request Error: An unexpected error occurred fetching summary: " ++ msg))
  | .processingError msg =>
    ([], some ("Error processing data after fetching: " ++ msg))

/-- What the page shows for a given fetch result. -/
structure SummaryRender where
  errorBanner : Option String
  warningBanner : Option String
  stopped : Bool
  noDataInfo : Bool
  successBanner : Bool
  metricsComputed : Bool
deriving Repr, DecidableEq

/-- The dispatch of `1_Summary_Dashboard.py` lines 122-136 and the
metrics guard of lines 158-205: an error message with an empty frame
shows an error banner and stops the page; an error message with data
shows a warning and continues; otherwise an empty frame shows the
no-data info line; metrics run only when the page was not stopped and
the frame is non-empty. -/
def renderSummaryPage (fetched : List Row × Option String) : SummaryRender :=
  match fetched.2 with
  | some m =>
    if fetched.1.isEmpty then
      ⟨some m, none, true, false, false, false⟩
    else ⟨none, some m, false, false, true, true⟩
  | none =>
    if fetched.1.isEmpty then ⟨none, none, false, true, false, false⟩
    else ⟨none, none, false, false, true, true⟩

end SummaryDashboard

/-! ## String-primitive lemmas -/

theorem dropWhile_self_of_head {p : Char → Bool} {l : List Char}
    (h : l.dropWhile p = l) {m s : List Char} (hm : m ++ s = l) :
    m.dropWhile p = m := by
  subst hm
  cases m with
  | nil => rfl
  | cons c t =>
    have h0 : 0 < (c :: t ++ s).length := by simp
    have hc' := (List.dropWhile_eq_self_iff).mp h h0
    have hget : (c :: t ++ s).get ⟨0, h0⟩ = c := rfl
    rw [hget] at hc'
    have hc : p c = false := by simpa using hc'
    simp [List.dropWhile_cons, hc]

theorem stripChars_idem (l : List Char) :
    stripChars (stripChars l) = stripChars l := by
  set p := isPySpace with hp
  set d := l.dropWhile p with hd
  set r := d.reverse.dropWhile p with hr
  have hdd : d.dropWhile p = d := by
    rw [hd]; exact List.dropWhile_idempotent p l
  have hrr : r.dropWhile p = r := by
    rw [hr]; exact List.dropWhile_idempotent p d.reverse
  have hsuffix : r <:+ d.reverse := by
    rw [hr]; exact List.dropWhile_suffix p
  obtain ⟨s, hs⟩ := hsuffix
  have hm : r.reverse ++ s.reverse = d := by
    have := congrArg List.reverse hs
    simpa using this
  have hstep1 : r.reverse.dropWhile p = r.reverse :=
    dropWhile_self_of_head hdd hm
  show ((r.reverse.dropWhile p).reverse.dropWhile p).reverse = r.reverse
  rw [hstep1, List.reverse_reverse, hrr]

theorem pyStrip_idem (s : String) : pyStrip (pyStrip s) = pyStrip s := by
  simp [pyStrip, stripChars_idem]

theorem mem_cleanLines (t : String) (s : String) (h : s ∈ cleanLines t) :
    s ≠ "" ∧ pyStrip s = s := by
  simp only [cleanLines, List.mem_filterMap] at h
  obtain ⟨line, _, hline⟩ := h
  by_cases he : pyStrip line = ""
  · simp [he] at hline
  · simp [he] at hline
    subst hline
    exact ⟨he, pyStrip_idem line⟩

theorem pySplitlinesAux_clean_append (cs : List Char) :
    (∀ c ∈ cs, isLineBreak c = false) →
    ∀ rest acc,
      pySplitlinesAux (cs ++ rest) acc = pySplitlinesAux rest (cs.reverse ++ acc) := by
  induction cs with
  | nil => intro _ rest acc; simp
  | cons c cs ih =>
    intro h rest acc
    have hc : isLineBreak c = false := h c (by simp)
    have h' : ∀ x ∈ cs, isLineBreak x = false := fun x hx => h x (by simp [hx])
    have hstep : pySplitlinesAux (c :: (cs ++ rest)) acc
        = pySplitlinesAux (cs ++ rest) (c :: acc) := by
      simp [pySplitlinesAux, hc]
    simp only [List.cons_append]
    rw [hstep, ih h' rest (c :: acc)]
    simp

theorem data_ne_nil_of_ne_empty {x : String} (h : x ≠ "") : x.data ≠ [] := by
  intro hd
  apply h
  cases x
  simp at hd
  simp [hd]

theorem pySplitlines_joinNL :
    ∀ (xs : List String),
      (∀ x ∈ xs, x ≠ "" ∧ (∀ c ∈ x.data, isLineBreak c = false)) →
      pySplitlines (pyJoinNL xs) = xs := by
  intro xs
  induction xs with
  | nil => intro _; simp [pySplitlines, pyJoinNL, joinNLChars, pySplitlinesAux]
  | cons x xs ih =>
    intro h
    obtain ⟨hx, hxc⟩ := h x (List.mem_cons_self x xs)
    have hxd : x.data ≠ [] := data_ne_nil_of_ne_empty hx
    have hxs : ∀ y ∈ xs, y ≠ "" ∧ (∀ c ∈ y.data, isLineBreak c = false) :=
      fun y hy => h y (List.mem_cons_of_mem x hy)
    cases xs with
    | nil =>
      show pySplitlinesAux (joinNLChars [x]) [] = [x]
      have happ := pySplitlinesAux_clean_append x.data hxc [] []
      calc pySplitlinesAux (joinNLChars [x]) []
          = pySplitlinesAux (x.data ++ []) [] := by simp [joinNLChars]
        _ = pySplitlinesAux [] (x.data.reverse ++ []) := happ
        _ = [x] := by
            simp [pySplitlinesAux, List.isEmpty_iff, hxd]
    | cons y ys =>
      show pySplitlinesAux (joinNLChars (x :: y :: ys)) [] = x :: y :: ys
      have happ := pySplitlinesAux_clean_append x.data hxc
        ('\n' :: joinNLChars (y :: ys)) []
      have hrec : pySplitlinesAux (joinNLChars (y :: ys)) [] = y :: ys := ih hxs
      calc pySplitlinesAux (joinNLChars (x :: y :: ys)) []
          = pySplitlinesAux (x.data ++ '\n' :: joinNLChars (y :: ys)) [] := by
            simp [joinNLChars]
        _ = pySplitlinesAux ('\n' :: joinNLChars (y :: ys)) (x.data.reverse ++ []) := happ
        _ = x :: y :: ys := by
            rw [pySplitlinesAux]
            simp [isLineBreak, hrec]

theorem filterMap_id_of_some {f : String → Option String} :
    ∀ (l : List String), (∀ x ∈ l, f x = some x) → l.filterMap f = l
  | [], _ => rfl
  | x :: l, h => by
    rw [List.filterMap_cons, h x (by simp),
      filterMap_id_of_some l (fun y hy => h y (by simp [hy]))]

theorem cleanLines_joinNL (xs : List String)
    (h : ∀ x ∈ xs, x ≠ "" ∧ pyStrip x = x ∧ ∀ c ∈ x.data, isLineBreak c = false) :
    cleanLines (pyJoinNL xs) = xs := by
  unfold cleanLines
  rw [show pySplitlines (pyJoinNL xs) = xs from
    pySplitlines_joinNL xs (fun x hx => ⟨(h x hx).1, (h x hx).2.2⟩)]
  exact filterMap_id_of_some xs (fun x hx => by
    obtain ⟨h1, h2, _⟩ := h x hx
    simp [h2, h1])
/-! ## Round-trip lemmas for the settings form -/

theorem lastKey_concat (path : List String) (k : String) :
    lastKey (path ++ [k]) = k := by
  simp [lastKey, List.getLast?_concat]

theorem cleanElem_props {x : String} (h : cleanElem x = true) :
    x ≠ "" ∧ pyStrip x = x ∧ ∀ c ∈ x.data, isLineBreak c = false := by
  simp only [cleanElem, Bool.and_eq_true, bne_iff_ne, ne_eq, beq_iff_eq,
    List.all_eq_true, Bool.not_eq_true'] at h
  exact ⟨h.1.1, h.1.2, h.2⟩

theorem lookup_eq_some_of_nodup :
    ∀ (l : List (String × WVal)) (k : String) (v : WVal),
      (l.map Prod.fst).Nodup → (k, v) ∈ l → l.lookup k = some v
  | [], _, _, _, hmem => by simp at hmem
  | (k', v') :: t, k, v, hnd, hmem => by
    have hpair : (∀ (x : WVal), (k', x) ∉ t) ∧ (t.map Prod.fst).Nodup := by
      simpa using hnd
    by_cases hk : k = k'
    · subst hk
      have hv : v = v' := by
        rcases List.mem_cons.mp hmem with heq | hmem'
        · exact (Prod.mk.injEq _ _ _ _ ▸ heq).2
        · exact absurd hmem' (hpair.1 v)
      subst hv
      simp [List.lookup]
    · have hmem' : (k, v) ∈ t := by
        rcases List.mem_cons.mp hmem with heq | h
        · exact absurd (Prod.mk.injEq _ _ _ _ ▸ heq).1 hk
        · exact h
      have hbeq : (k == k') = false := beq_eq_false_iff_ne.mpr hk
      simp [List.lookup, hbeq]
      exact lookup_eq_some_of_nodup t k v hpair.2 hmem'

mutual
theorem buildEntry_eq_of_render :
    ∀ (k : String) (v : SettingVal) (path : List String)
      (st : String → Option WVal),
      goodVal k v = true →
      (∀ e ∈ render_setting (path ++ [k]) v, st e.1 = some e.2) →
      buildEntry k v path st = v
  | k, .b x, path, st, _, hst => by
    have hw : st (widgetKey (path ++ [k])) = some (.wb x) :=
      hst (widgetKey (path ++ [k]), .wb x) (by simp [render_setting])
    simp [buildEntry, coerceWidget, hw, pyBool]
  | k, .i x, path, st, _, hst => by
    have hw : st (widgetKey (path ++ [k])) = some (.wi x) :=
      hst (widgetKey (path ++ [k]), .wi x) (by simp [render_setting])
    simp [buildEntry, coerceWidget, hw, pyIntW]
  | k, .f x, path, st, _, hst => by
    have hw : st (widgetKey (path ++ [k])) = some (.wf x) :=
      hst (widgetKey (path ++ [k]), .wf x) (by simp [render_setting])
    simp [buildEntry, coerceWidget, hw, pyFloatW]
  | k, .s x, path, st, _, hst => by
    have hw : st (widgetKey (path ++ [k])) = some (.ws x) :=
      hst (widgetKey (path ++ [k]), .ws x) (by simp [render_setting])
    simp [buildEntry, coerceWidget, hw, pyStrW]
  | k, .l xs, path, st, hg, hst => by
    have hk : specialListKeys.contains k = true ∧ xs.all cleanElem = true := by
      simpa [goodVal, Bool.and_eq_true] using hg
    have hmem : k ∈ specialListKeys := by simpa using hk.1
    have hw : st (widgetKey (path ++ [k])) = some (.ws (pyJoinNL xs)) := by
      apply hst (widgetKey (path ++ [k]), .ws (pyJoinNL xs))
      simp [render_setting, lastKey_concat, hmem]
    have hclean : cleanLines (pyJoinNL xs) = xs :=
      cleanLines_joinNL xs (fun x hx =>
        cleanElem_props (List.all_eq_true.mp hk.2 x hx))
    simp [buildEntry, coerceWidget, hw, hmem, hclean]
  | k, .d f2, path, st, hg, hst => by
    have h2 := buildFields_eq_of_render f2 (path ++ [k]) st
      (by simpa [goodVal] using hg)
      (fun e he => hst e (by simp [render_setting, he]))
    simp [buildEntry, h2]
termination_by _ v => sizeOf v
decreasing_by all_goals first | (simp; omega) | simp

theorem buildFields_eq_of_render :
    ∀ (fields : List (String × SettingVal)) (path : List String)
      (st : String → Option WVal),
      goodFields fields = true →
      (∀ e ∈ renderFields fields path, st e.1 = some e.2) →
      buildFields fields path st = fields
  | [], _, _, _, _ => by simp [buildFields]
  | (k, v) :: rest, path, st, hg, hst => by
    have hgv : goodVal k v = true ∧ goodFields rest = true := by
      simpa [goodFields, Bool.and_eq_true] using hg
    have hhead := buildEntry_eq_of_render k v path st hgv.1
      (fun e he => hst e (by simp [renderFields, he]))
    have hrest := buildFields_eq_of_render rest path st hgv.2
      (fun e he => hst e (by simp [renderFields, he]))
    simp [buildFields, hhead, hrest]
termination_by fields => sizeOf fields
decreasing_by all_goals first | (simp; omega) | simp
end

theorem coerceWidget_leaf_sameTypes (k : String) (v : SettingVal)
    (w : Option WVal) (hok : listKeysOk k v = true)
    (hnd : ∀ f, v ≠ SettingVal.d f) :
    sameTypes v (coerceWidget k v w) = true := by
  cases v with
  | d f => exact absurd rfl (hnd f)
  | b x => cases w <;> simp [coerceWidget, sameTypes]
  | i x =>
    cases w with
    | none => simp [coerceWidget, sameTypes]
    | some wv =>
      simp only [coerceWidget]
      cases pyIntW wv <;> simp [sameTypes]
  | f x =>
    cases w with
    | none => simp [coerceWidget, sameTypes]
    | some wv =>
      simp only [coerceWidget]
      cases pyFloatW wv <;> simp [sameTypes]
  | s x => cases w <;> simp [coerceWidget, sameTypes]
  | l xs =>
    have hc : specialListKeys.contains k = true := by
      simpa only [listKeysOk] using hok
    cases w with
    | none => simp [coerceWidget, sameTypes]
    | some wv =>
      have hred : coerceWidget k (SettingVal.l xs) (some wv)
          = (match wv with
             | WVal.ws t => SettingVal.l (cleanLines t)
             | _ => SettingVal.l xs) := by
        simp only [coerceWidget, hc, if_true]
      rw [hred]
      cases wv <;> simp [sameTypes]

mutual
theorem buildEntry_sameTypes :
    ∀ (k : String) (v : SettingVal) (path : List String)
      (st : String → Option WVal),
      listKeysOk k v = true →
      sameTypes v (buildEntry k v path st) = true
  | k, .b x, path, st, hok => by
    simpa [buildEntry] using
      coerceWidget_leaf_sameTypes k (.b x)
        (st (widgetKey (path ++ [k]))) hok (by simp)
  | k, .i x, path, st, hok => by
    simpa [buildEntry] using
      coerceWidget_leaf_sameTypes k (.i x)
        (st (widgetKey (path ++ [k]))) hok (by simp)
  | k, .f x, path, st, hok => by
    simpa [buildEntry] using
      coerceWidget_leaf_sameTypes k (.f x)
        (st (widgetKey (path ++ [k]))) hok (by simp)
  | k, .s x, path, st, hok => by
    simpa [buildEntry] using
      coerceWidget_leaf_sameTypes k (.s x)
        (st (widgetKey (path ++ [k]))) hok (by simp)
  | k, .l xs, path, st, hok => by
    simpa [buildEntry] using
      coerceWidget_leaf_sameTypes k (.l xs)
        (st (widgetKey (path ++ [k]))) hok (by simp)
  | k, .d f2, path, st, hok => by
    have h2 := buildFields_sameTypes f2 (path ++ [k]) st
      (by simpa [listKeysOk] using hok)
    simp [buildEntry, sameTypes, h2]
termination_by _ v => sizeOf v
decreasing_by all_goals first | (simp; omega) | simp

theorem buildFields_sameTypes :
    ∀ (fields : List (String × SettingVal)) (path : List String)
      (st : String → Option WVal),
      listKeysOkFields fields = true →
      sameTypesFields fields (buildFields fields path st) = true
  | [], _, _, _ => by simp [buildFields, sameTypesFields]
  | (k, v) :: rest, path, st, hok => by
    have hpair : listKeysOk k v = true ∧ listKeysOkFields rest = true := by
      simpa [listKeysOkFields, Bool.and_eq_true] using hok
    have hhead := buildEntry_sameTypes k v path st hpair.1
    have hrest := buildFields_sameTypes rest path st hpair.2
    simp [buildFields, sameTypesFields, hhead, hrest]
termination_by fields => sizeOf fields
decreasing_by all_goals first | (simp; omega) | simp
end

/-! ## Claim theorems -/

/-- C5: for every prior log buffer, a transport failure of
`fetch_logs_from_api` leaves the buffer exactly as it was and returns
failure, while a decodable-but-wrong-shape response and an undecodable
response each replace the buffer with a single explanatory error line;
a well-formed response replaces it wholesale. -/
theorem c5_log_buffer_non_regression :
    ∀ (prev : List String) (excName reprStr : String),
      fetch_logs_from_api prev (LogsResp.reqError excName) = (prev, false) ∧
      fetch_logs_from_api prev (LogsResp.badShape reprStr)
        = (["--- Error: Invalid log format ---"], false) ∧
      fetch_logs_from_api prev LogsResp.badJson
        = (["--- Error: Invalid JSON logs ---"], false) ∧
      ∀ lines, fetch_logs_from_api prev (LogsResp.ok lines) = (lines, true) := by
  intro prev excName reprStr
  exact ⟨rfl, rfl, rfl, fun _ => rfl⟩

/-- C6: a successful save on the consistency page (and on the delete
page) clears the settings cache and the loaded document, so the next
load performs a network call; a failed save leaves the page state —
cache, loaded document and form edits — exactly unchanged. -/
theorem c6_save_invalidates_cache :
    ∀ (pg : ConsistencyPageState) (dg : DeletePageState)
      (net netd : Option SettingVal × Option String),
      (consistency_submit pg true).settingsCache = none ∧
      (consistency_submit pg true).currentSettings = none ∧
      (cached_fetch_main_settings
        (consistency_submit pg true).settingsCache net).2.2 = true ∧
      consistency_submit pg false = pg ∧
      (delete_save_click dg true).settingsCache = none ∧
      (delete_save_click dg true).currentSettings = none ∧
      (cached_fetch_main_settings
        (delete_save_click dg true).settingsCache netd).2.2 = true ∧
      delete_save_click dg false = dg := by
  intro pg dg net netd
  refine ⟨?_, ?_, ?_, ?_, ?_, ?_, ?_, ?_⟩ <;>
    simp [consistency_submit, delete_save_click, cached_fetch_main_settings]

/-- C7: on `{"profiles": []}` the dashboard takes the error branch —
the "No profile data found" message is rendered through the error
banner and the page stops (the dedicated no-data info line of line 132
is unreachable for this input); no metrics are computed. -/
theorem c7_empty_profiles_renders_error :
    SummaryDashboard.renderSummaryPage
        (SummaryDashboard.fetch_summary_data_from_api
          (SummaryDashboard.SummaryResp.payloadProfiles []))
      = { errorBanner := some "No profile data found in the backend/sheet.",
          warningBanner := none, stopped := true, noDataInfo := false,
          successBanner := false, metricsComputed := false } := by
  rfl

/-- C8: a transport failure during a status poll sets `state = error`
and a timestamped failure message in `details`, leaves the previously
stored `task` and `last_update` unchanged, and returns `false` instead
of raising — on both the Run-Full-Flow and the Check-Consistency
versions of `fetch_status_from_api`. -/
theorem c8_poll_failure_frame :
    ∀ (prev : WorkerStatus) (now excName : String) (lastFetch nowT : Int),
      RunFullFlow.fetch_status_from_api prev now (StatusResp.reqError excName)
        = ({ prev with
              state := "error"
              details := some ("(" ++ now ++ ") Status Fetch Fail: " ++ excName) },
            false) ∧
      (RunFullFlow.fetch_status_from_api prev now
        (StatusResp.reqError excName)).1.task = prev.task ∧
      (RunFullFlow.fetch_status_from_api prev now
        (StatusResp.reqError excName)).1.lastUpdate = prev.lastUpdate ∧
      CheckConsistency.fetch_status_from_api prev lastFetch now nowT
          (StatusResp.reqError excName)
        = ({ prev with
              state := "error"
              details := some ("(" ++ now ++ ") Status Fetch Fail: " ++ excName) },
            nowT, false) := by
  intro prev now excName lastFetch nowT
  exact ⟨rfl, rfl, rfl, rfl⟩

/-- C9: the control request body carries a `task_type` field exactly
when the action is `"start"` and the given task type is a non-empty
string; a stop command always sends `{"action": "stop"}` alone, and a
start with `None` or `""` sends `{"action": "start"}` without the key. -/
theorem c9_control_payload_shape :
    (∀ (action : String) (task_type : Option String) (s : String),
       (send_control_command_payload action task_type).task_type = some s ↔
         action = "start" ∧ task_type = some s ∧ s ≠ "") ∧
    (∀ task_type, send_control_command_payload "stop" task_type
        = ⟨"stop", none⟩) ∧
    send_control_command_payload "start" none = ⟨"start", none⟩ ∧
    send_control_command_payload "start" (some "") = ⟨"start", none⟩ ∧
    (∀ s : String, s ≠ "" →
       send_control_command_payload "start" (some s) = ⟨"start", some s⟩) := by
  refine ⟨?_, ?_, ?_, ?_, ?_⟩
  · intro action task_type s
    cases task_type with
    | none => simp [send_control_command_payload, pyTruthyStr]
    | some u =>
      by_cases ha : action = "start"
      · subst ha
        by_cases hu : u = ""
        · subst hu
          simp [send_control_command_payload, pyTruthyStr]
          exact fun h => h.symm
        · constructor
          · intro h
            have hus : u = s := by
              simpa [send_control_command_payload, pyTruthyStr, hu] using h
            subst hus
            exact ⟨rfl, rfl, hu⟩
          · rintro ⟨-, h2, -⟩
            simpa [send_control_command_payload, pyTruthyStr, hu] using h2
      · simp [send_control_command_payload, pyTruthyStr, ha]
  · intro task_type
    simp [send_control_command_payload]
  · simp [send_control_command_payload, pyTruthyStr]
  · simp [send_control_command_payload, pyTruthyStr]
  · intro s hs
    simp [send_control_command_payload, pyTruthyStr, hs]

/-- C9 witness: a start command with the concrete non-empty task type
`"full_flow"` carries the `task_type` field. -/
theorem c9_control_payload_witness :
    ("full_flow" : String) ≠ "" ∧
    send_control_command_payload "start" (some "full_flow")
      = ⟨"start", some "full_flow"⟩ :=
  ⟨by decide, c9_control_payload_shape.2.2.2.2 "full_flow" (by decide)⟩

/-- C10: every string produced by the strip-and-drop-blanks split of a
multi-line text field is non-empty and carries no leading or trailing
whitespace. -/
theorem c10_newline_list_invariant :
    ∀ (text s : String), s ∈ cleanLines text → s ≠ "" ∧ pyStrip s = s :=
  fun text s h => mem_cleanLines text s h

/-- C10 witness: the concrete text `"  alpha  \n\n beta"` splits into
`["alpha", "beta"]`, whose head is non-empty and stripped. -/
theorem c10_newline_list_witness :
    ("alpha" ∈ cleanLines "  alpha  \n\n beta") ∧
    ("alpha" : String) ≠ "" ∧ pyStrip "alpha" = "alpha" := by
  have hmem : "alpha" ∈ cleanLines "  alpha  \n\n beta" := by
    simp [cleanLines, pySplitlines, pySplitlinesAux, pyStrip, stripChars,
      isPySpace, isLineBreak, List.dropWhile]
  exact ⟨hmem, c10_newline_list_invariant "  alpha  \n\n beta" "alpha" hmem⟩

/-- C3 counterexample: on the Check-Consistency page a worker that is
`running` another task (`full_flow`) is polled at the page's IDLE
interval (30s), not its ACTIVE interval (3s), and that interval is not
strictly below the interval recommended for an idle worker — so the
claimed rule does not hold "regardless of which task identifier is
active". -/
theorem c3_cadence_counterexample :
    CheckConsistency.refresh_interval "running" (some "full_flow")
        = CheckConsistency.STATUS_REFRESH_INTERVAL_IDLE ∧
    CheckConsistency.refresh_interval "running" (some "full_flow")
        ≠ CheckConsistency.STATUS_REFRESH_INTERVAL_ACTIVE ∧
    ¬ CheckConsistency.refresh_interval "running" (some "full_flow")
        < CheckConsistency.refresh_interval "idle" none := by
  refine ⟨rfl, by decide, by decide⟩

/-- C3 amended: on the Run-Full-Flow page any active state yields the
page's ACTIVE interval, strictly below every inactive interval,
independently of the task; on the Check-Consistency page this holds
only when the active task is `"consistency"` — with any other (or no)
task identifier an active state is polled at the IDLE interval. -/
theorem c3_cadence_amended :
    (∀ state : String, RunFullFlow.is_any_task_running state = true →
       RunFullFlow.page_refresh_interval state
           = RunFullFlow.STATUS_REFRESH_INTERVAL_ACTIVE ∧
       ∀ state' : String, RunFullFlow.is_any_task_running state' = false →
         RunFullFlow.page_refresh_interval state
           < RunFullFlow.page_refresh_interval state') ∧
    (∀ state : String,
       (["running", "starting", "stopping"].contains state) = true →
       CheckConsistency.refresh_interval state (some "consistency")
           = CheckConsistency.STATUS_REFRESH_INTERVAL_ACTIVE ∧
       (∀ (state' : String) (task' : Option String),
          CheckConsistency.is_this_task_running state' task' = false →
          CheckConsistency.refresh_interval state (some "consistency")
            < CheckConsistency.refresh_interval state' task') ∧
       ∀ task : Option String, task ≠ some "consistency" →
         CheckConsistency.refresh_interval state task
           = CheckConsistency.STATUS_REFRESH_INTERVAL_IDLE) := by
  constructor
  · intro state hact
    refine ⟨by simp [RunFullFlow.page_refresh_interval, hact], ?_⟩
    intro state' hidle
    simp [RunFullFlow.page_refresh_interval, hact, hidle,
      RunFullFlow.STATUS_REFRESH_INTERVAL_ACTIVE,
      RunFullFlow.STATUS_REFRESH_INTERVAL_IDLE]
  · intro state hact
    have hthis : CheckConsistency.is_this_task_running state (some "consistency")
        = true := by
      simp [CheckConsistency.is_this_task_running]
      simpa using hact
    refine ⟨by simp [CheckConsistency.refresh_interval, hthis], ?_, ?_⟩
    · intro state' task' hnot
      simp [CheckConsistency.refresh_interval, hthis, hnot,
        CheckConsistency.STATUS_REFRESH_INTERVAL_ACTIVE,
        CheckConsistency.STATUS_REFRESH_INTERVAL_IDLE]
    · intro task htask
      have hfalse : CheckConsistency.is_this_task_running state task = false := by
        simp [CheckConsistency.is_this_task_running]
        intro _
        exact fun he => htask (by rw [he])
      simp [CheckConsistency.refresh_interval, hfalse]

/-- C3 witness: the amended rule applied at the concrete active state
`"running"` and idle state `"idle"` on both pages. -/
theorem c3_cadence_witness :
    (RunFullFlow.is_any_task_running "running" = true ∧
     RunFullFlow.page_refresh_interval "running"
         = RunFullFlow.STATUS_REFRESH_INTERVAL_ACTIVE) ∧
    (["running", "starting", "stopping"].contains "running") = true ∧
    CheckConsistency.refresh_interval "running" (some "consistency")
        = CheckConsistency.STATUS_REFRESH_INTERVAL_ACTIVE ∧
    CheckConsistency.refresh_interval "running" (some "full_flow")
        = CheckConsistency.STATUS_REFRESH_INTERVAL_IDLE := by
  refine ⟨⟨by decide, (c3_cadence_amended.1 "running" (by decide)).1⟩, by decide, ?_, ?_⟩
  · exact (c3_cadence_amended.2 "running" (by decide)).1
  · exact (c3_cadence_amended.2 "running" (by decide)).2.2 (some "full_flow") (by decide)

/-- C4 counterexample: a well-formed `/status` payload whose `state` is
the out-of-enumeration value `"banana"` is stored verbatim by
`fetch_status_from_api` — not replaced by an `error` status — so the
claimed state-enum invariant fails after this poll. -/
theorem c4_state_enum_counterexample :
    (RunFullFlow.fetch_status_from_api
        ⟨"idle", none, some "ok", none⟩ "12:00:00"
        (StatusResp.ok ⟨"banana", some "full_flow", some "processing", some 5⟩)).1
      = ⟨"banana", some "full_flow", some "processing", some 5⟩ ∧
    stateEnum.contains "banana" = false ∧
    (CheckConsistency.fetch_status_from_api
        ⟨"idle", none, some "ok", none⟩ 0 "12:00:00" 7
        (StatusResp.ok ⟨"banana", some "full_flow", some "processing", some 5⟩)).1
      = ⟨"banana", some "full_flow", some "processing", some 5⟩ := by
  exact ⟨rfl, by decide, rfl⟩

/-- C4 amended: the two `fetch_status_from_api` versions only check that
the payload is a dict containing `state`; such a payload is stored
verbatim whatever its `state` value (the enumeration is not validated).
The stored state is `"error"` exactly for the failure cases: transport
error, undecodable JSON, and a payload that is not a dict with `state`
(whose `details` quotes the malformed payload). -/
theorem c4_state_enum_amended :
    (∀ (prev p : WorkerStatus) (lastFetch nowT : Int) (now : String),
       RunFullFlow.fetch_status_from_api prev now (StatusResp.ok p) = (p, true) ∧
       CheckConsistency.fetch_status_from_api prev lastFetch now nowT
         (StatusResp.ok p) = (p, nowT, true)) ∧
    (∀ (prev : WorkerStatus) (lastFetch nowT : Int) (now reprStr : String),
       RunFullFlow.fetch_status_from_api prev now (StatusResp.notStatusDict reprStr)
         = (⟨"error", none, some ("Invalid status format: " ++ reprStr), none⟩,
            false) ∧
       CheckConsistency.fetch_status_from_api prev lastFetch now nowT
           (StatusResp.notStatusDict reprStr)
         = (⟨"error", none, some ("Invalid status format: " ++ reprStr), none⟩,
            lastFetch, false)) ∧
    (∀ (prev : WorkerStatus) (lastFetch nowT : Int) (now excName : String),
       (RunFullFlow.fetch_status_from_api prev now
         (StatusResp.reqError excName)).1.state = "error" ∧
       (RunFullFlow.fetch_status_from_api prev now
         (StatusResp.reqError excName)).2 = false ∧
       (CheckConsistency.fetch_status_from_api prev lastFetch now nowT
         (StatusResp.reqError excName)).1.state = "error") ∧
    (∀ (prev : WorkerStatus) (lastFetch nowT : Int) (now : String),
       RunFullFlow.fetch_status_from_api prev now StatusResp.badJson
         = (⟨"error", none, some "Invalid JSON status.", none⟩, false) ∧
       CheckConsistency.fetch_status_from_api prev lastFetch now nowT
           StatusResp.badJson
         = (⟨"error", none, some "Invalid JSON status.", none⟩, lastFetch, false)) := by
  refine ⟨fun prev p lastFetch nowT now => ⟨rfl, rfl⟩,
    fun prev lastFetch nowT now reprStr => ⟨rfl, rfl⟩,
    fun prev lastFetch nowT now excName => ⟨rfl, rfl, rfl⟩,
    fun prev lastFetch nowT now => ⟨rfl, rfl⟩⟩

/-- C1 counterexample: the single-leaf document `{"items": ["a"]}` (a
list-of-string leaf whose key is not one of the newline-edited keys) is
rendered read-only as the string `"['a']"`, and collecting the rendered,
unedited widget state back turns the leaf into that string — the
round-trip does not reproduce the document. -/
theorem c1_roundtrip_counterexample :
    build_updated_settings (SettingVal.d [("items", SettingVal.l ["a"])]) []
        (renderState [("items", SettingVal.l ["a"])])
      = SettingVal.d [("items", SettingVal.s "['a']")] ∧
    build_updated_settings (SettingVal.d [("items", SettingVal.l ["a"])]) []
        (renderState [("items", SettingVal.l ["a"])])
      ≠ SettingVal.d [("items", SettingVal.l ["a"])] := by
  have heval : build_updated_settings
      (SettingVal.d [("items", SettingVal.l ["a"])]) []
      (renderState [("items", SettingVal.l ["a"])])
      = SettingVal.d [("items", SettingVal.s "['a']")] := by
    simp [build_updated_settings, buildFields, buildEntry, renderState,
      renderFields, render_setting, coerceWidget, widgetKey, lastKey,
      specialListKeys, pyReprStrList, joinWith, widgetToVal, List.lookup]
  refine ⟨heval, ?_⟩
  rw [heval]
  simp

/-- C1 amended: the unedited round-trip `collect(D, render(D)) = D` holds
for every document whose list leaves all sit under the newline-edited
keys (`profile_ids` / `proxies` / `recovery_emails`) with non-empty,
stripped, line-break-free elements, and whose rendered widget keys are
pairwise distinct (Streamlit aborts rendering on a duplicate key). -/
theorem c1_roundtrip_amended (fields : List (String × SettingVal))
    (hgood : goodFields fields = true)
    (hnodup : ((renderFields fields []).map Prod.fst).Nodup) :
    build_updated_settings (SettingVal.d fields) [] (renderState fields)
      = SettingVal.d fields := by
  have hst : ∀ e ∈ renderFields fields [], renderState fields e.1 = some e.2 := by
    intro e he
    exact lookup_eq_some_of_nodup (renderFields fields []) e.1 e.2 hnodup
      (by simpa using he)
  have := buildFields_eq_of_render fields [] (renderState fields) hgood hst
  simp [build_updated_settings, this]

/-- C1 witness: a concrete five-field document with every leaf type
(bool, int, float, string, special-key list, nested mapping)
reconstructs to itself from its unedited rendering. -/
theorem c1_roundtrip_witness :
    (goodFields
        [("full_flow_enabled", SettingVal.b true),
         ("threads", SettingVal.i 2),
         ("delay", SettingVal.f ((5 : Rat) / 2)),
         ("name_prefix", SettingVal.s "bot"),
         ("proxies", SettingVal.l ["p1", "p2"]),
         ("advanced", SettingVal.d [("sheet_name", SettingVal.s "Accounts Data")])]
      = true ∧
     ((renderFields
        [("full_flow_enabled", SettingVal.b true),
         ("threads", SettingVal.i 2),
         ("delay", SettingVal.f ((5 : Rat) / 2)),
         ("name_prefix", SettingVal.s "bot"),
         ("proxies", SettingVal.l ["p1", "p2"]),
         ("advanced", SettingVal.d [("sheet_name", SettingVal.s "Accounts Data")])]
        []).map Prod.fst).Nodup) ∧
    build_updated_settings
        (SettingVal.d
          [("full_flow_enabled", SettingVal.b true),
           ("threads", SettingVal.i 2),
           ("delay", SettingVal.f ((5 : Rat) / 2)),
           ("name_prefix", SettingVal.s "bot"),
           ("proxies", SettingVal.l ["p1", "p2"]),
           ("advanced", SettingVal.d [("sheet_name", SettingVal.s "Accounts Data")])])
        []
        (renderState
          [("full_flow_enabled", SettingVal.b true),
           ("threads", SettingVal.i 2),
           ("delay", SettingVal.f ((5 : Rat) / 2)),
           ("name_prefix", SettingVal.s "bot"),
           ("proxies", SettingVal.l ["p1", "p2"]),
           ("advanced", SettingVal.d [("sheet_name", SettingVal.s "Accounts Data")])])
      = SettingVal.d
          [("full_flow_enabled", SettingVal.b true),
           ("threads", SettingVal.i 2),
           ("delay", SettingVal.f ((5 : Rat) / 2)),
           ("name_prefix", SettingVal.s "bot"),
           ("proxies", SettingVal.l ["p1", "p2"]),
           ("advanced", SettingVal.d [("sheet_name", SettingVal.s "Accounts Data")])] := by
  have hgood : goodFields
      [("full_flow_enabled", SettingVal.b true),
       ("threads", SettingVal.i 2),
       ("delay", SettingVal.f ((5 : Rat) / 2)),
       ("name_prefix", SettingVal.s "bot"),
       ("proxies", SettingVal.l ["p1", "p2"]),
       ("advanced", SettingVal.d [("sheet_name", SettingVal.s "Accounts Data")])]
      = true := by
    simp [goodFields, goodVal, specialListKeys, cleanElem, pyStrip, stripChars,
      isPySpace, isLineBreak, List.dropWhile]
  have hnodup : ((renderFields
      [("full_flow_enabled", SettingVal.b true),
       ("threads", SettingVal.i 2),
       ("delay", SettingVal.f ((5 : Rat) / 2)),
       ("name_prefix", SettingVal.s "bot"),
       ("proxies", SettingVal.l ["p1", "p2"]),
       ("advanced", SettingVal.d [("sheet_name", SettingVal.s "Accounts Data")])]
      []).map Prod.fst).Nodup := by
    simp [renderFields, render_setting, widgetKey, lastKey, specialListKeys,
      joinWith]
  exact ⟨⟨hgood, hnodup⟩, c1_roundtrip_amended _ hgood hnodup⟩

/-- C2 counterexample: a list-of-string leaf stored under a key outside
the newline-edited set (`"foo"`) hits the verbatim-fallback branch of
`build_updated_settings`, so an edited string widget value turns the
list leaf into a string leaf — the leaf type is not preserved. -/
theorem c2_type_preservation_counterexample :
    build_updated_settings (SettingVal.d [("foo", SettingVal.l ["x"])]) []
        (fun k => if k == "setting_foo" then some (WVal.ws "hello") else none)
      = SettingVal.d [("foo", SettingVal.s "hello")] ∧
    sameTypes (SettingVal.d [("foo", SettingVal.l ["x"])])
        (build_updated_settings (SettingVal.d [("foo", SettingVal.l ["x"])]) []
          (fun k => if k == "setting_foo" then some (WVal.ws "hello") else none))
      = false := by
  have heval : build_updated_settings
      (SettingVal.d [("foo", SettingVal.l ["x"])]) []
      (fun k => if k == "setting_foo" then some (WVal.ws "hello") else none)
      = SettingVal.d [("foo", SettingVal.s "hello")] := by
    simp [build_updated_settings, buildFields, buildEntry, coerceWidget,
      widgetKey, joinWith, specialListKeys, widgetToVal]
  refine ⟨heval, ?_⟩
  rw [heval]
  simp [sameTypes, sameTypesFields]

/-- C2 amended: for every document whose list leaves all sit under the
newline-edited keys, reconstruction under an arbitrary widget-state
assignment preserves every leaf's type (the mapping structure, key
sequence, and each leaf's bool / int / float / str / list kind); a leaf
whose `int()` or `float()` coercion fails keeps its original value, and
reconstruction is total, never aborting. -/
theorem c2_type_preservation_amended :
    (∀ (fields : List (String × SettingVal)) (path : List String)
       (st : String → Option WVal),
       listKeysOkFields fields = true →
       sameTypes (SettingVal.d fields)
         (build_updated_settings (SettingVal.d fields) path st) = true) ∧
    (∀ (k : String) (x : Int) (wv : WVal), pyIntW wv = none →
       coerceWidget k (SettingVal.i x) (some wv) = SettingVal.i x) ∧
    (∀ (k : String) (q : Rat) (wv : WVal), pyFloatW wv = none →
       coerceWidget k (SettingVal.f q) (some wv) = SettingVal.f q) := by
  refine ⟨?_, ?_, ?_⟩
  · intro fields path st hok
    have := buildFields_sameTypes fields path st hok
    simp [build_updated_settings, sameTypes, this]
  · intro k x wv h
    simp [coerceWidget, h]
  · intro k q wv h
    simp [coerceWidget, h]

/-- C2 witness: reconstruction of `{"proxies": ["p"], "threads": 7}`
from a widget state holding a non-numeric string for `threads` and a
bool for `proxies` keeps both leaf types, and the failed `int("zz")`
coercion at a concrete leaf keeps the original value. -/
theorem c2_type_preservation_witness :
    (listKeysOkFields
        [("proxies", SettingVal.l ["p"]), ("threads", SettingVal.i 7)] = true ∧
     sameTypes
        (SettingVal.d [("proxies", SettingVal.l ["p"]), ("threads", SettingVal.i 7)])
        (build_updated_settings
          (SettingVal.d [("proxies", SettingVal.l ["p"]), ("threads", SettingVal.i 7)])
          []
          (fun k =>
            if k == "setting_proxies" then some (WVal.wb true)
            else if k == "setting_threads" then some (WVal.ws "zz") else none))
      = true) ∧
    (pyIntW (WVal.ws "zz") = none ∧
     coerceWidget "threads" (SettingVal.i 7) (some (WVal.ws "zz"))
        = SettingVal.i 7) := by
  have hok : listKeysOkFields
      [("proxies", SettingVal.l ["p"]), ("threads", SettingVal.i 7)] = true := by
    simp [listKeysOkFields, listKeysOk, specialListKeys]
  have hparse : pyIntW (WVal.ws "zz") = none := by
    simp [pyIntW, pyParseInt, pyStrip, stripChars, isPySpace, List.dropWhile,
      digitsToNat]
  exact ⟨⟨hok, c2_type_preservation_amended.1 _ [] _ hok⟩,
    ⟨hparse, c2_type_preservation_amended.2.1 "threads" 7 (WVal.ws "zz") hparse⟩⟩
